import Mathlib

/-!
Shallow embedding of the Imagefy backend (the current server source:
webhook reconciler, /verify-code, /check-pro, /cancel-subscription).

The persisted entitlement store (MongoDB collection `users`, unique index
on `email`) is modelled as an association list keyed by email.  A MongoDB
document has optional fields; absent fields are modelled by `Option`
(`none` = absent/null) and absent booleans by `false`, matching how the
code reads them (`user.isPro || false`, `user.lifetimeAccess || false`).

External collaborators (Stripe customer lookup, the Stripe subscription
update call, the wall clock, datastore availability) are passed in as an
explicit environment; a `none`/flag value for a call models the call
throwing, which the source catches.
-/

namespace Imagefy

/-- A persisted entitlement record (one MongoDB document in `users`). -/
structure UserRecord where
  isPro : Bool := false
  method : Option String := none
  subscriptionStatus : Option String := none
  stripeCustomerId : Option String := none
  subscriptionId : Option String := none
  lifetimeAccess : Bool := false
  activatedAt : Option Nat := none
  lastPayment : Option Nat := none
  cancelledAt : Option Nat := none
  cancelRequestedAt : Option Nat := none
  codeUsedAt : Option Nat := none
  updatedAt : Option Nat := none
  cancelAtPeriodEnd : Bool := false
  deriving Repr, DecidableEq

/-- The datastore: documents keyed by email (unique index). -/
abbrev Db := List (String × UserRecord)

/-- `db.collection('users').findOne({ email })`. -/
def findOne : Db → String → Option UserRecord
  | [], _ => none
  | (k, r) :: rest, e => if k = e then some r else findOne rest e

/-- Apply a field mutation to the first document matching `e`. -/
def setFields : Db → String → (UserRecord → UserRecord) → Db
  | [], _, _ => []
  | (k, r) :: rest, e, f =>
      if k = e then (k, f r) :: rest else (k, r) :: setFields rest e f

/-- `db.collection('users').updateOne({ email }, { $set/$unset ... }, { upsert })`:
mutate the matching document in place; with `upsert`, when no document
matches, insert a fresh document built from the query key and the
mutation applied to an empty document. -/
def updateOne (db : Db) (e : String) (f : UserRecord → UserRecord)
    (upsert : Bool) : Db :=
  match findOne db e with
  | some _ => setFields db e f
  | none => if upsert then db ++ [(e, f {})] else db

/-- JS truthiness of an optional string field (`undefined`, `null` and `""`
are falsy). -/
def strTruthy : Option String → Bool
  | none => false
  | some s => s ≠ ""

/-- JS `a || b` on two optional string fields: first truthy value. -/
def jsOrStr : Option String → Option String → Option String
  | some s, b => if s = "" then b else some s
  | none, b => b

/-- A verified Stripe event, after `stripe.webhooks.constructEvent`
succeeded.  The payload is one dynamic object; each handler reads only
the fields it needs, so all payload fields are optional here. -/
structure StripeEvent where
  type : String
  /-- `session.customer_email` (checkout.session.completed). -/
  customerEmail : Option String := none
  /-- `session.customer_details?.email` (checkout.session.completed). -/
  detailsEmail : Option String := none
  /-- `session.customer` / `invoice.customer` / `subscription.customer`. -/
  customer : Option String := none
  /-- `session.subscription` (checkout.session.completed). -/
  subscription : Option String := none
  /-- `subscription.status` (customer.subscription.updated). -/
  status : Option String := none
  deriving Repr, DecidableEq

/-- The webhook handler's environment: the wall clock, the outcome of
`stripe.customers.retrieve` (`none` = the call throws; `some e` = it
returns a customer whose `email` field is `e`), and whether datastore
operations throw. -/
structure WebhookEnv where
  now : Nat
  retrieveCustomer : String → Option (Option String)
  dbFails : Bool := false

/-- Resolve `stripe.customers.retrieve(cust).email` to a truthy email, or
`none` when the customer reference is absent (the call throws), the call
itself throws, or the email field is falsy. -/
def resolveEmail (env : WebhookEnv) (cust : Option String) : Option String :=
  match cust with
  | none => none
  | some c =>
      match env.retrieveCustomer c with
      | none => none
      | some emailField => if strTruthy emailField then emailField else none

/-- The `$set` mutation of the checkout.session.completed branch. -/
def checkoutSet (env : WebhookEnv) (ev : StripeEvent) (r : UserRecord) :
    UserRecord :=
  { r with isPro := true, activatedAt := some env.now,
           method := some "stripe", stripeCustomerId := ev.customer,
           subscriptionId := ev.subscription }

/-- The `$set` mutation of the invoice.payment_succeeded branch. -/
def invoiceSet (env : WebhookEnv) (c : String) (r : UserRecord) :
    UserRecord :=
  { r with isPro := true, lastPayment := some env.now,
           method := some "stripe", stripeCustomerId := some c }

/-- The `$set` mutation of the customer.subscription.updated branch. -/
def subUpdatedSet (env : WebhookEnv) (ev : StripeEvent) (r : UserRecord) :
    UserRecord :=
  { r with isPro := (ev.status = some "active" ∨ ev.status = some "trialing"),
           subscriptionStatus := ev.status, updatedAt := some env.now }

/-- The `$set`/`$unset` mutation of the customer.subscription.deleted
branch for a `secret_code` user: keep `isPro`, mark cancelled, drop the
stale Stripe references. -/
def subDeletedKeepSet (env : WebhookEnv) (r : UserRecord) : UserRecord :=
  { r with subscriptionStatus := some "cancelled",
           cancelledAt := some env.now,
           stripeCustomerId := none, subscriptionId := none }

/-- The `$set` mutation of the customer.subscription.deleted branch for a
regular Stripe user: remove Pro. -/
def subDeletedDropSet (env : WebhookEnv) (r : UserRecord) : UserRecord :=
  { r with isPro := false, cancelledAt := some env.now,
           subscriptionStatus := some "cancelled" }

/-- The webhook event dispatch (the chained `if event.type === ...` in the
`/webhook` route), applied to the datastore.  Every lookup or datastore
failure is caught inside the handler and leaves the store unchanged. -/
def applyEvent (env : WebhookEnv) (ev : StripeEvent) (db : Db) : Db :=
  if ev.type = "checkout.session.completed" then
    let email := jsOrStr ev.customerEmail ev.detailsEmail
    match email with
    | some e =>
        if e ≠ "" ∧ ¬env.dbFails then
          updateOne db e (checkoutSet env ev) true
        else db
    | none => db
  else if ev.type = "invoice.payment_succeeded" then
    match ev.customer with
    | none => db
    | some c =>
        match resolveEmail env (some c) with
        | some e => if ¬env.dbFails then
              updateOne db e (invoiceSet env c) true
            else db
        | none => db
  else if ev.type = "customer.subscription.updated" then
    match resolveEmail env ev.customer with
    | some e => if ¬env.dbFails then
          updateOne db e (subUpdatedSet env ev) false
        else db
    | none => db
  else if ev.type = "customer.subscription.deleted" then
    match resolveEmail env ev.customer with
    | some e =>
        if ¬env.dbFails then
          match findOne db e with
          | some u =>
              if u.method = some "secret_code" then
                updateOne db e (subDeletedKeepSet env) false
              else
                updateOne db e (subDeletedDropSet env) false
          | none => updateOne db e (subDeletedDropSet env) false
        else db
    | none => db
  else db

/-- The webhook endpoint's HTTP response. -/
inductive WebhookResponse where
  /-- `400` with an error body: signature verification failed. -/
  | sigError
  /-- `200 {received:true}`. -/
  | received
  deriving Repr, DecidableEq

/-- The full `/webhook` route: `verified = none` models
`stripe.webhooks.constructEvent` throwing (bad signature), which is the
only path that does not acknowledge with `200 {received:true}`. -/
def webhook (env : WebhookEnv) (verified : Option StripeEvent) (db : Db) :
    Db × WebhookResponse :=
  match verified with
  | none => (db, .sigError)
  | some ev => (applyEvent env ev db, .received)

/-- JS `s.includes(ch)` for a one-character needle: the character occurs
in the string. -/
def jsIncludes (s : String) (ch : Char) : Bool := ch ∈ s.data

/-- JS `s.trim()`: strip whitespace from both ends. -/
def jsTrim (s : String) : String :=
  ⟨((s.data.dropWhile Char.isWhitespace).reverse.dropWhile
      Char.isWhitespace).reverse⟩

/-- JS `s.toUpperCase()` (over the ASCII range the codes use). -/
def jsToUpper (s : String) : String := ⟨s.data.map Char.toUpper⟩

/-- The configured secret-code set: `[SECRET_CODE_1, SECRET_CODE_2,
SECRET_CODE_3].filter(Boolean)` (absent and empty values dropped). -/
def secretCodes (c1 c2 c3 : Option String) : List String :=
  ([c1, c2, c3].filterMap id).filter (fun s => s ≠ "")

/-- The `/verify-code` JSON response. -/
structure VerifyResponse where
  success : Bool
  isPro : Option Bool := none
  message : Option String := none
  deriving Repr, DecidableEq

/-- The `$set` mutation of the `/verify-code` grant branch. -/
def grantSet (now : Nat) (r : UserRecord) : UserRecord :=
  { r with isPro := true, activatedAt := some now,
           method := some "secret_code", codeUsedAt := some now,
           lifetimeAccess := true }

/-- The `/verify-code` route (RedeemCode): validate presence, minimal
email-format check, normalize the code by trim + uppercase, test
membership in the configured code set; on match upsert the lifetime
grant.  `dbFails` models the datastore update throwing. -/
def verifyCode (codes : List String) (now : Nat) (dbFails : Bool)
    (email code : Option String) (db : Db) : Db × VerifyResponse :=
  if ¬strTruthy email ∨ ¬strTruthy code then
    (db, { success := false, message := some "Email and code required" })
  else
    match email, code with
    | some e, some c =>
        if ¬(jsIncludes e '@' ∧ jsIncludes e '.') then
          (db, { success := false, message := some "Invalid email format" })
        else
          let normalizedCode := jsToUpper (jsTrim c)
          if normalizedCode ∈ codes then
            if dbFails then
              (db, { success := false, message := some "Database error" })
            else
              (updateOne db e (grantSet now) true,
               { success := true, isPro := some true })
          else
            (db, { success := false, message := some "Invalid code" })
    | _, _ => (db, { success := false, message := some "Email and code required" })

/-- `n` repeated invocations of `/verify-code` with the same request. -/
def verifyCodeN (codes : List String) (now : Nat) (dbFails : Bool)
    (email code : Option String) : Nat → Db → Db
  | 0, db => db
  | n + 1, db =>
      verifyCodeN codes now dbFails email code n
        (verifyCode codes now dbFails email code db).1

/-- The `/cancel-subscription` environment: the wall clock, the outcome
of `stripe.subscriptions.update(id, {cancel_at_period_end:true})`
(`none` = the call throws; `some pe` = it returns a subscription with
`current_period_end = pe`, in seconds), and whether datastore operations
throw. -/
structure CancelEnv where
  now : Nat
  stripeUpdate : String → Option Nat
  dbFails : Bool := false

/-- The `/cancel-subscription` outcome: resulting datastore, HTTP status,
`success` flag, returned `periodEnd` (milliseconds, from
`new Date(current_period_end * 1000)`), and whether the Stripe
subscription-update call was issued. -/
structure CancelResult where
  db : Db
  status : Nat
  success : Bool
  periodEnd : Option Nat := none
  stripeCalled : Bool := false
  deriving Repr, DecidableEq

/-- The `$set` mutation of the `/cancel-subscription` success path. -/
def cancellingSet (now : Nat) (r : UserRecord) : UserRecord :=
  { r with subscriptionStatus := some "cancelling",
           cancelRequestedAt := some now, cancelAtPeriodEnd := true }

/-- The `/cancel-subscription` route (RequestCancellation): look up the
record; reject lifetime-code users and records without a subscription
id; otherwise flag the subscription for cancellation at period end on
the processor and only then persist `cancelling`. -/
def cancelSubscription (env : CancelEnv) (email : Option String) (db : Db) :
    CancelResult :=
  if ¬strTruthy email then
    { db := db, status := 400, success := false }
  else
    match email with
    | none => { db := db, status := 400, success := false }
    | some e =>
        if env.dbFails then
          { db := db, status := 500, success := false }
        else
          match findOne db e with
          | none => { db := db, status := 404, success := false }
          | some user =>
              if user.method = some "secret_code" then
                { db := db, status := 400, success := false }
              else if ¬strTruthy user.subscriptionId then
                { db := db, status := 404, success := false }
              else
                match user.subscriptionId with
                | none => { db := db, status := 404, success := false }
                | some sid =>
                    match env.stripeUpdate sid with
                    | none =>
                        { db := db, status := 500, success := false,
                          stripeCalled := true }
                    | some pe =>
                        { db := updateOne db e (cancellingSet env.now) false,
                          status := 200, success := true,
                          periodEnd := some (pe * 1000),
                          stripeCalled := true }

/-- Datastore states reachable from the empty store by any sequence of
verified webhook events and API write calls. -/
inductive Reachable : Db → Prop where
  | init : Reachable []
  | webhookStep (env : WebhookEnv) (ev : StripeEvent) {db : Db} :
      Reachable db → Reachable (applyEvent env ev db)
  | verifyStep (codes : List String) (now : Nat) (dbFails : Bool)
      (email code : Option String) {db : Db} :
      Reachable db → Reachable (verifyCode codes now dbFails email code db).1
  | cancelStep (env : CancelEnv) (email : Option String) {db : Db} :
      Reachable db → Reachable (cancelSubscription env email db).db

/-! ### Datastore lemmas -/

theorem findOne_setFields_self (db : Db) (e : String)
    (f : UserRecord → UserRecord) :
    findOne (setFields db e f) e = (findOne db e).map f := by
  induction db with
  | nil => rfl
  | cons kv rest ih =>
      obtain ⟨k, r⟩ := kv
      by_cases h : k = e
      · simp [setFields, findOne, h]
      · simp [setFields, findOne, h, ih]

theorem findOne_setFields_ne (db : Db) (e e' : String)
    (f : UserRecord → UserRecord) (h : e' ≠ e) :
    findOne (setFields db e f) e' = findOne db e' := by
  induction db with
  | nil => rfl
  | cons kv rest ih =>
      obtain ⟨k, r⟩ := kv
      by_cases hk : k = e
      · subst hk
        have hk' : ¬k = e' := fun hh => h hh.symm
        simp [setFields, findOne, hk']
      · by_cases hk' : k = e'
        · subst hk'
          simp [setFields, findOne, hk]
        · simp [setFields, findOne, hk, hk', ih]

theorem findOne_append (db l : Db) (e : String) :
    findOne (db ++ l) e = (findOne db e).or (findOne l e) := by
  induction db with
  | nil => simp [findOne]
  | cons kv rest ih =>
      obtain ⟨k, r⟩ := kv
      by_cases h : k = e <;> simp [findOne, h, ih]

theorem setFields_eq_of_findOne_none (db : Db) (e : String)
    (f : UserRecord → UserRecord) (h : findOne db e = none) :
    setFields db e f = db := by
  induction db with
  | nil => rfl
  | cons kv rest ih =>
      obtain ⟨k, r⟩ := kv
      by_cases hk : k = e
      · simp [findOne, hk] at h
      · simp [findOne, hk] at h
        simp [setFields, hk, ih h]

theorem setFields_append_of_findOne_none (db l : Db) (e : String)
    (f : UserRecord → UserRecord) (h : findOne db e = none) :
    setFields (db ++ l) e f = db ++ setFields l e f := by
  induction db with
  | nil => rfl
  | cons kv rest ih =>
      obtain ⟨k, r⟩ := kv
      by_cases hk : k = e
      · simp [findOne, hk] at h
      · simp [findOne, hk] at h
        simp [setFields, hk, ih h]

theorem setFields_setFields (db : Db) (e : String)
    (f g : UserRecord → UserRecord) :
    setFields (setFields db e f) e g = setFields db e (fun r => g (f r)) := by
  induction db with
  | nil => rfl
  | cons kv rest ih =>
      obtain ⟨k, r⟩ := kv
      by_cases hk : k = e <;> simp [setFields, hk, ih]

theorem findOne_updateOne_self (db : Db) (e : String)
    (f : UserRecord → UserRecord) (u : Bool) :
    findOne (updateOne db e f u) e =
      (match findOne db e with
       | some r => some (f r)
       | none => if u then some (f {}) else none) := by
  unfold updateOne
  cases h : findOne db e with
  | some r => simp [h, findOne_setFields_self]
  | none =>
      cases u with
      | false => simp [h]
      | true => simp [h, findOne_append, findOne]

theorem findOne_updateOne_ne (db : Db) (e e' : String)
    (f : UserRecord → UserRecord) (u : Bool) (h : e' ≠ e) :
    findOne (updateOne db e f u) e' = findOne db e' := by
  unfold updateOne
  cases hf : findOne db e with
  | some r => simp [findOne_setFields_ne db e e' f h]
  | none =>
      cases u with
      | false => simp
      | true =>
          have h' : ¬e = e' := fun hh => h hh.symm
          simp [findOne_append, findOne, h']

theorem updateOne_idem (db : Db) (e : String)
    (f : UserRecord → UserRecord) (hf : ∀ r, f (f r) = f r) :
    updateOne (updateOne db e f true) e f true = updateOne db e f true := by
  cases h : findOne db e with
  | some r =>
      have h1 : updateOne db e f true = setFields db e f := by
        unfold updateOne; simp [h]
      have h2 : findOne (setFields db e f) e = some (f r) := by
        simp [findOne_setFields_self, h]
      rw [h1]
      unfold updateOne
      rw [h2, setFields_setFields]
      exact congrArg (setFields db e) (funext hf)
  | none =>
      have h1 : updateOne db e f true = db ++ [(e, f {})] := by
        unfold updateOne; simp [h]
      have h2 : findOne (db ++ [(e, f {})]) e = some (f {}) := by
        simp [findOne_append, h, findOne]
      rw [h1]
      unfold updateOne
      rw [h2, setFields_append_of_findOne_none db _ e f h]
      simp [setFields, hf]

theorem lifetimeAccess_of_updateOne (db : Db) (e e' : String)
    (f : UserRecord → UserRecord) (u : Bool)
    (hf : ∀ r, (f r).lifetimeAccess = r.lifetimeAccess)
    (r' : UserRecord) (hfind : findOne (updateOne db e f u) e' = some r')
    (hl : r'.lifetimeAccess = true) :
    ∃ r, findOne db e' = some r ∧ r.lifetimeAccess = true := by
  by_cases he : e' = e
  · subst he
    rw [findOne_updateOne_self] at hfind
    cases h : findOne db e' with
    | some r =>
        rw [h] at hfind
        refine ⟨r, rfl, ?_⟩
        cases hfind
        rw [hf r] at hl
        exact hl
    | none =>
        rw [h] at hfind
        cases u with
        | false => simp at hfind
        | true =>
            simp at hfind
            rw [← hfind, hf] at hl
            simp [UserRecord.lifetimeAccess] at hl
  · rw [findOne_updateOne_ne db e e' f u he] at hfind
    exact ⟨r', hfind, hl⟩

theorem findOne_updateOne_cases (db : Db) (e e2 : String)
    (f : UserRecord → UserRecord) (up : Bool) (r' : UserRecord)
    (h : findOne (updateOne db e2 f up) e = some r') :
    (e ≠ e2 ∧ findOne db e = some r') ∨
    (e = e2 ∧ ((∃ r, findOne db e2 = some r ∧ r' = f r) ∨
               (findOne db e2 = none ∧ up = true ∧ r' = f {}))) := by
  by_cases he : e = e2
  · subst he
    rw [findOne_updateOne_self] at h
    cases hf : findOne db e with
    | some r =>
        rw [hf] at h
        exact Or.inr ⟨rfl, Or.inl ⟨r, rfl, (Option.some.inj h).symm⟩⟩
    | none =>
        rw [hf] at h
        cases up with
        | false => simp at h
        | true =>
            simp at h
            exact Or.inr ⟨rfl, Or.inr ⟨rfl, rfl, h.symm⟩⟩
  · rw [findOne_updateOne_ne db e2 e f up he] at h
    exact Or.inl ⟨he, h⟩

/-- Every webhook dispatch outcome is either a no-op on the datastore or
one of the five `updateOne` mutations, with the side conditions under
which the source reaches it. -/
theorem applyEvent_shape (env : WebhookEnv) (ev : StripeEvent) (db : Db) :
    applyEvent env ev db = db ∨
    (∃ e, applyEvent env ev db = updateOne db e (checkoutSet env ev) true) ∨
    (∃ e c, applyEvent env ev db = updateOne db e (invoiceSet env c) true) ∨
    (∃ e, ev.type = "customer.subscription.updated" ∧
      applyEvent env ev db = updateOne db e (subUpdatedSet env ev) false) ∨
    (∃ e u, findOne db e = some u ∧ u.method = some "secret_code" ∧
      applyEvent env ev db = updateOne db e (subDeletedKeepSet env) false) ∨
    (∃ e, (∀ u, findOne db e = some u → ¬u.method = some "secret_code") ∧
      applyEvent env ev db = updateOne db e (subDeletedDropSet env) false) := by
  by_cases h1 : ev.type = "checkout.session.completed"
  · cases hj : jsOrStr ev.customerEmail ev.detailsEmail with
    | none => exact Or.inl (by simp [applyEvent, h1, hj])
    | some e =>
        by_cases he : e = ""
        · exact Or.inl (by simp [applyEvent, h1, hj, he])
        · by_cases hdb : env.dbFails
          · exact Or.inl (by simp [applyEvent, h1, hj, he, hdb])
          · exact Or.inr (Or.inl ⟨e, by simp [applyEvent, h1, hj, he, hdb]⟩)
  · by_cases h2 : ev.type = "invoice.payment_succeeded"
    · cases hcu : ev.customer with
      | none => exact Or.inl (by simp [applyEvent, h1, h2, hcu])
      | some c =>
          cases hr : resolveEmail env (some c) with
          | none => exact Or.inl (by simp [applyEvent, h1, h2, hcu, hr])
          | some e =>
              by_cases hdb : env.dbFails
              · exact Or.inl (by simp [applyEvent, h1, h2, hcu, hr, hdb])
              · exact Or.inr (Or.inr (Or.inl ⟨e, c,
                  by simp [applyEvent, h1, h2, hcu, hr, hdb]⟩))
    · by_cases h3 : ev.type = "customer.subscription.updated"
      · cases hr : resolveEmail env ev.customer with
        | none => exact Or.inl (by simp [applyEvent, h1, h2, h3, hr])
        | some e =>
            by_cases hdb : env.dbFails
            · exact Or.inl (by simp [applyEvent, h1, h2, h3, hr, hdb])
            · exact Or.inr (Or.inr (Or.inr (Or.inl ⟨e, h3,
                by simp [applyEvent, h1, h2, h3, hr, hdb]⟩)))
      · by_cases h4 : ev.type = "customer.subscription.deleted"
        · cases hr : resolveEmail env ev.customer with
          | none => exact Or.inl (by simp [applyEvent, h1, h2, h3, h4, hr])
          | some e =>
              by_cases hdb : env.dbFails
              · exact Or.inl (by simp [applyEvent, h1, h2, h3, h4, hr, hdb])
              · cases hf : findOne db e with
                | none =>
                    refine Or.inr (Or.inr (Or.inr (Or.inr (Or.inr
                      ⟨e, ?_, ?_⟩))))
                    · intro u hu; rw [hf] at hu; cases hu
                    · simp [applyEvent, h1, h2, h3, h4, hr, hdb, hf]
                | some u =>
                    by_cases hm : u.method = some "secret_code"
                    · exact Or.inr (Or.inr (Or.inr (Or.inr (Or.inl
                        ⟨e, u, hf, hm,
                         by simp [applyEvent, h1, h2, h3, h4, hr, hdb, hf, hm]⟩))))
                    · refine Or.inr (Or.inr (Or.inr (Or.inr (Or.inr
                        ⟨e, ?_, ?_⟩))))
                      · intro u' hu'
                        rw [hf] at hu'
                        cases hu'
                        exact hm
                      · simp [applyEvent, h1, h2, h3, h4, hr, hdb, hf, hm]
        · exact Or.inl (by simp [applyEvent, h1, h2, h3, h4])

/-- RequestCancellation either leaves the datastore unchanged or applies
the single `cancelling` mutation. -/
theorem cancelSubscription_db_shape (env : CancelEnv) (email : Option String)
    (db : Db) :
    (cancelSubscription env email db).db = db ∨
    ∃ e, (cancelSubscription env email db).db =
      updateOne db e (cancellingSet env.now) false := by
  by_cases h0 : strTruthy email = true
  · cases email with
    | none => exact Or.inl rfl
    | some e =>
        have he : ¬e = "" := by simpa [strTruthy] using h0
        by_cases hdb : env.dbFails
        · exact Or.inl (by simp [cancelSubscription, h0, hdb])
        · cases hf : findOne db e with
          | none => exact Or.inl (by simp [cancelSubscription, h0, hdb, hf])
          | some u =>
              by_cases hm : u.method = some "secret_code"
              · exact Or.inl (by simp [cancelSubscription, h0, hdb, hf, hm])
              · cases hs : u.subscriptionId with
                | none =>
                    exact Or.inl
                      (by simp [cancelSubscription, h0, hdb, hf, hm, hs,
                        strTruthy, he])
                | some sid =>
                    by_cases hs0 : sid = ""
                    · exact Or.inl
                        (by simp [cancelSubscription, h0, hdb, hf, hm, hs, hs0,
                          strTruthy, he])
                    · cases hu : env.stripeUpdate sid with
                      | none =>
                          exact Or.inl
                            (by simp [cancelSubscription, h0, hdb, hf, hm, hs,
                              hs0, strTruthy, hu, he])
                      | some pe =>
                          exact Or.inr ⟨e,
                            by simp [cancelSubscription, h0, hdb, hf, hm, hs,
                              hs0, strTruthy, hu, he]⟩
  · exact Or.inl (by simp [cancelSubscription, h0])

/-! ### Claim theorems -/

/-- C2: on a `customer.subscription.deleted` event whose customer resolves
to an email with an existing record, a `secret_code` record keeps `isPro`,
gets `subscriptionStatus = cancelled`, a `cancelledAt` stamp, and loses
`stripeCustomerId`/`subscriptionId`; any other record gets `isPro = false`,
`subscriptionStatus = cancelled`, and a `cancelledAt` stamp. -/
theorem subscription_deleted_precedence
    (env : WebhookEnv) (ev : StripeEvent) (db : Db) (c e : String)
    (u : UserRecord)
    (htype : ev.type = "customer.subscription.deleted")
    (hcust : ev.customer = some c)
    (hret : env.retrieveCustomer c = some (some e))
    (he : e ≠ "")
    (hdb : env.dbFails = false)
    (hfind : findOne db e = some u) :
    findOne (applyEvent env ev db) e =
      some (if u.method = some "secret_code"
            then { u with subscriptionStatus := some "cancelled",
                          cancelledAt := some env.now,
                          stripeCustomerId := none, subscriptionId := none }
            else { u with isPro := false,
                          subscriptionStatus := some "cancelled",
                          cancelledAt := some env.now }) := by
  have hres : resolveEmail env ev.customer = some e := by
    simp [resolveEmail, hcust, hret, strTruthy, he]
  by_cases hm : u.method = some "secret_code"
  · simp only [applyEvent, htype, hres, hdb, hfind, hm]
    simp [findOne_updateOne_self, hfind, subDeletedKeepSet, hm]
  · simp only [applyEvent, htype, hres, hdb, hfind, hm]
    simp [findOne_updateOne_self, hfind, subDeletedDropSet, hm]

def envC2 : WebhookEnv :=
  { now := 5,
    retrieveCustomer := fun c => if c = "cus_1" then some (some "a@x.com") else none }

def evC2 : StripeEvent :=
  { type := "customer.subscription.deleted", customer := some "cus_1" }

def uC2 : UserRecord :=
  { isPro := true, method := some "secret_code", lifetimeAccess := true,
    stripeCustomerId := some "cus_1", subscriptionId := some "sub_1" }

theorem subscription_deleted_precedence_witness :
    findOne (applyEvent envC2 evC2 [("a@x.com", uC2)]) "a@x.com" =
      some { uC2 with subscriptionStatus := some "cancelled",
                      cancelledAt := some 5,
                      stripeCustomerId := none, subscriptionId := none } := by
  have h := subscription_deleted_precedence envC2 evC2 [("a@x.com", uC2)]
    "cus_1" "a@x.com" uC2 rfl rfl rfl (by decide) rfl rfl
  simpa [uC2, envC2] using h

/-- `n` deliveries of the same webhook event. -/
def applyEventN (env : WebhookEnv) (ev : StripeEvent) : Nat → Db → Db
  | 0, db => db
  | n + 1, db => applyEvent env ev (applyEventN env ev n db)

/-- C3: delivering the same `checkout.session.completed` event (with a
resolvable email) any number of times leaves the datastore in the same
state as delivering it once. -/
theorem checkout_idempotent (env : WebhookEnv) (ev : StripeEvent) (db : Db)
    (htype : ev.type = "checkout.session.completed")
    (hres : strTruthy (jsOrStr ev.customerEmail ev.detailsEmail) = true) :
    applyEvent env ev (applyEvent env ev db) = applyEvent env ev db ∧
    ∀ n, applyEventN env ev (n + 1) db = applyEvent env ev db := by
  have key : applyEvent env ev (applyEvent env ev db) = applyEvent env ev db := by
    cases hj : jsOrStr ev.customerEmail ev.detailsEmail with
    | none => rw [hj] at hres; simp [strTruthy] at hres
    | some e =>
        rw [hj] at hres
        have he : e ≠ "" := by simpa [strTruthy] using hres
        by_cases hdb : env.dbFails
        · simp [applyEvent, htype, hj, hdb]
        · simp [applyEvent, htype, hj, hdb, he]
          exact updateOne_idem db e (checkoutSet env ev) (fun r => rfl)
  refine ⟨key, ?_⟩
  intro n
  induction n with
  | zero => rfl
  | succ n ih =>
      calc applyEventN env ev (n + 2) db
          = applyEvent env ev (applyEventN env ev (n + 1) db) := rfl
        _ = applyEvent env ev (applyEvent env ev db) := by rw [ih]
        _ = applyEvent env ev db := key

def envC3 : WebhookEnv := { now := 7, retrieveCustomer := fun _ => none }

def evC3 : StripeEvent :=
  { type := "checkout.session.completed", customerEmail := some "a@x.com",
    customer := some "cus_1", subscription := some "sub_1" }

theorem checkout_idempotent_witness :
    applyEvent envC3 evC3 (applyEvent envC3 evC3 []) =
      applyEvent envC3 evC3 [] ∧
    applyEventN envC3 evC3 3 [] = applyEvent envC3 evC3 [] :=
  ⟨(checkout_idempotent envC3 evC3 [] rfl (by decide)).1,
   (checkout_idempotent envC3 evC3 [] rfl (by decide)).2 2⟩

/-- C8: the webhook endpoint answers `400` exactly when signature
verification fails; every verified event is acknowledged with
`200 {received:true}`, whatever the environment does (failed customer
lookups, failed datastore operations). -/
theorem webhook_response_policy (env : WebhookEnv)
    (verified : Option StripeEvent) (db : Db) :
    ((webhook env verified db).2 = WebhookResponse.sigError ↔ verified = none) ∧
    (∀ ev, verified = some ev →
      (webhook env verified db).2 = WebhookResponse.received) := by
  cases verified <;> simp [webhook]

def envC8 : WebhookEnv :=
  { now := 0, retrieveCustomer := fun _ => none, dbFails := true }

def evC8 : StripeEvent :=
  { type := "invoice.payment_succeeded", customer := some "cus_9" }

theorem webhook_response_policy_witness :
    (webhook envC8 (some evC8) []).2 = WebhookResponse.received ∧
    ¬((webhook envC8 (some evC8) []).2 = WebhookResponse.sigError) := by
  refine ⟨(webhook_response_policy envC8 (some evC8) []).2 evC8 rfl, ?_⟩
  intro h
  have := (webhook_response_policy envC8 (some evC8) []).1.mp h
  simp at this

/-- C10: a verified event whose type is none of the four handled types
leaves the datastore unchanged and is still acknowledged with
`200 {received:true}`. -/
theorem unknown_event_noop (env : WebhookEnv) (ev : StripeEvent) (db : Db)
    (h1 : ev.type ≠ "checkout.session.completed")
    (h2 : ev.type ≠ "invoice.payment_succeeded")
    (h3 : ev.type ≠ "customer.subscription.updated")
    (h4 : ev.type ≠ "customer.subscription.deleted") :
    webhook env (some ev) db = (db, WebhookResponse.received) := by
  simp [webhook, applyEvent, h1, h2, h3, h4]

def envC10 : WebhookEnv := { now := 3, retrieveCustomer := fun _ => none }

def evC10 : StripeEvent :=
  { type := "payment_intent.succeeded", customer := some "cus_1" }

def dbC10 : Db := [("a@x.com", { isPro := true, method := some "stripe" })]

theorem unknown_event_noop_witness :
    webhook envC10 (some evC10) dbC10 = (dbC10, WebhookResponse.received) :=
  unknown_event_noop envC10 evC10 dbC10 (by decide) (by decide) (by decide)
    (by decide)

/-- The `/verify-code` email-format check, as the source performs it. -/
def emailFormatOk : Option String → Bool
  | none => false
  | some e => jsIncludes e '@' && jsIncludes e '.'

/-- The `/verify-code` membership test on the normalized code. -/
def codeMatches (codes : List String) : Option String → Bool
  | none => false
  | some c => jsToUpper (jsTrim c) ∈ codes

/-- C4: a well-formed email together with a code whose trimmed,
upper-cased form is configured yields `success = true` and upserts the
lifetime grant (`isPro`, `method = secret_code`, `lifetimeAccess`, fresh
`activatedAt`/`codeUsedAt`), creating the record when none existed. -/
theorem redeem_code_grants (codes : List String) (now : Nat) (db : Db)
    (e c : String)
    (he0 : e ≠ "") (hc0 : c ≠ "")
    (hat : jsIncludes e '@' = true) (hdot : jsIncludes e '.' = true)
    (hmem : jsToUpper (jsTrim c) ∈ codes) :
    (verifyCode codes now false (some e) (some c) db).2 =
      { success := true, isPro := some true } ∧
    findOne (verifyCode codes now false (some e) (some c) db).1 e =
      some (grantSet now ((findOne db e).getD {})) := by
  have h1 : verifyCode codes now false (some e) (some c) db =
      (updateOne db e (grantSet now) true,
       { success := true, isPro := some true }) := by
    simp [verifyCode, strTruthy, he0, hc0, hat, hdot, hmem]
  refine ⟨by rw [h1], ?_⟩
  rw [h1, findOne_updateOne_self]
  cases h : findOne db e <;> simp

theorem redeem_code_grants_witness :
    (verifyCode ["IMAGEFY2025PRO"] 9 false (some "a@x.com")
        (some " imagefy2025pro ") []).2 =
      { success := true, isPro := some true } ∧
    findOne (verifyCode ["IMAGEFY2025PRO"] 9 false (some "a@x.com")
        (some " imagefy2025pro ") []).1 "a@x.com" =
      some (grantSet 9 {}) := by
  have h := redeem_code_grants ["IMAGEFY2025PRO"] 9 [] "a@x.com"
    " imagefy2025pro " (by decide) (by decide) (by decide) (by decide)
    (by decide)
  simpa using h

/-- C5: `/verify-code` returns `success = false` and leaves the datastore
untouched whenever the email or code is missing (or empty), the email
fails the `@`/`.` check, or the normalized code is not configured — and
repeating the same rejected request any number of times still changes
nothing. -/
theorem redeem_code_rejects (codes : List String) (now : Nat)
    (dbFails : Bool) (email code : Option String) (db : Db)
    (h : ¬(strTruthy email = true ∧ strTruthy code = true ∧
           emailFormatOk email = true ∧ codeMatches codes code = true)) :
    (verifyCode codes now dbFails email code db).2.success = false ∧
    (verifyCode codes now dbFails email code db).1 = db ∧
    ∀ n, verifyCodeN codes now dbFails email code n db = db := by
  have key : (verifyCode codes now dbFails email code db).2.success = false ∧
      (verifyCode codes now dbFails email code db).1 = db := by
    unfold verifyCode
    by_cases h1 : ¬strTruthy email ∨ ¬strTruthy code
    · rw [if_pos h1]
      exact ⟨rfl, rfl⟩
    · rw [if_neg h1]
      push_neg at h1
      obtain ⟨he, hc⟩ := h1
      cases email with
      | none => simp [strTruthy] at he
      | some e =>
          cases code with
          | none => simp [strTruthy] at hc
          | some c =>
              by_cases h2 : (jsIncludes e '@' = true ∧ jsIncludes e '.' = true)
              · by_cases h3 : jsToUpper (jsTrim c) ∈ codes
                · exact absurd ⟨he, hc,
                    by simp [emailFormatOk, h2.1, h2.2],
                    by simp [codeMatches, h3]⟩ h
                · simp [h2.1, h2.2, h3]
              · simp [h2]
  refine ⟨key.1, key.2, ?_⟩
  intro n
  induction n with
  | zero => rfl
  | succ n ih => simp only [verifyCodeN, key.2, ih]

theorem redeem_code_rejects_witness :
    (verifyCode ["IMAGEFY2025PRO"] 9 false (some "a@x.com") (some "WRONG")
        [("a@x.com", { isPro := true })]).2.success = false ∧
    (verifyCode ["IMAGEFY2025PRO"] 9 false (some "a@x.com") (some "WRONG")
        [("a@x.com", { isPro := true })]).1 =
      [("a@x.com", { isPro := true })] ∧
    verifyCodeN ["IMAGEFY2025PRO"] 9 false (some "a@x.com") (some "WRONG") 3
        [("a@x.com", { isPro := true })] =
      [("a@x.com", { isPro := true })] := by
  have h := redeem_code_rejects ["IMAGEFY2025PRO"] 9 false (some "a@x.com")
    (some "WRONG") [("a@x.com", { isPro := true })] (by decide)
  exact ⟨h.1, h.2.1, h.2.2 3⟩

/-- C6: RequestCancellation for a record with `method = secret_code`
answers the `400` failure, issues no Stripe call, and leaves the
datastore untouched. -/
theorem cancel_secret_code_rejected (env : CancelEnv) (db : Db) (e : String)
    (u : UserRecord)
    (he : e ≠ "") (hdb : env.dbFails = false)
    (hfind : findOne db e = some u)
    (hm : u.method = some "secret_code") :
    cancelSubscription env (some e) db =
      { db := db, status := 400, success := false } := by
  simp [cancelSubscription, strTruthy, he, hdb, hfind, hm]

def envC6 : CancelEnv := { now := 11, stripeUpdate := fun _ => some 1234 }

def uC6 : UserRecord :=
  { isPro := true, method := some "secret_code", lifetimeAccess := true }

theorem cancel_secret_code_rejected_witness :
    cancelSubscription envC6 (some "a@x.com") [("a@x.com", uC6)] =
      { db := [("a@x.com", uC6)], status := 400, success := false } :=
  cancel_secret_code_rejected envC6 [("a@x.com", uC6)] "a@x.com" uC6
    (by decide) rfl rfl rfl

/-- C7: for a non-`secret_code` record with a subscription id, a failing
Stripe cancellation call yields a `500` failure with the datastore
untouched (the write only happens after the call succeeds); a succeeding
call marks the record `cancelling` with a `cancelRequestedAt` stamp and
returns the computed period-end date. -/
theorem cancel_processor_outcome (env : CancelEnv) (db : Db) (e : String)
    (u : UserRecord) (sid : String)
    (he : e ≠ "") (hdb : env.dbFails = false)
    (hfind : findOne db e = some u)
    (hm : ¬u.method = some "secret_code")
    (hsid : u.subscriptionId = some sid) (hsid0 : sid ≠ "") :
    cancelSubscription env (some e) db =
      (match env.stripeUpdate sid with
       | none => { db := db, status := 500, success := false,
                   stripeCalled := true }
       | some pe =>
           { db := updateOne db e (cancellingSet env.now) false,
             status := 200, success := true, periodEnd := some (pe * 1000),
             stripeCalled := true }) ∧
    (∀ pe, env.stripeUpdate sid = some pe →
      findOne (cancelSubscription env (some e) db).db e =
        some { u with subscriptionStatus := some "cancelling",
                      cancelRequestedAt := some env.now,
                      cancelAtPeriodEnd := true }) := by
  have hmain : cancelSubscription env (some e) db =
      (match env.stripeUpdate sid with
       | none => { db := db, status := 500, success := false,
                   stripeCalled := true }
       | some pe =>
           { db := updateOne db e (cancellingSet env.now) false,
             status := 200, success := true, periodEnd := some (pe * 1000),
             stripeCalled := true }) := by
    cases hs : env.stripeUpdate sid <;>
      simp [cancelSubscription, strTruthy, he, hdb, hfind, hm, hsid, hsid0, hs]
  refine ⟨hmain, ?_⟩
  intro pe hs
  rw [hmain, hs]
  simp [findOne_updateOne_self, hfind, cancellingSet]

def envC7 : CancelEnv := { now := 13, stripeUpdate := fun _ => some 1700 }

def uC7 : UserRecord :=
  { isPro := true, method := some "stripe",
    stripeCustomerId := some "cus_1", subscriptionId := some "sub_1" }

theorem cancel_processor_outcome_witness :
    cancelSubscription envC7 (some "a@x.com") [("a@x.com", uC7)] =
      { db := updateOne [("a@x.com", uC7)] "a@x.com" (cancellingSet 13) false,
        status := 200, success := true, periodEnd := some 1700000,
        stripeCalled := true } ∧
    findOne (cancelSubscription envC7 (some "a@x.com")
        [("a@x.com", uC7)]).db "a@x.com" =
      some { uC7 with subscriptionStatus := some "cancelling",
                      cancelRequestedAt := some 13,
                      cancelAtPeriodEnd := true } := by
  have h := cancel_processor_outcome envC7 [("a@x.com", uC7)] "a@x.com" uC7
    "sub_1" (by decide) rfl rfl (by simp [uC7]) rfl (by decide)
  exact ⟨h.1, h.2 1700 rfl⟩

def envC1 : WebhookEnv :=
  { now := 21,
    retrieveCustomer := fun c =>
      if c = "cus_7" then some (some "u@x.com") else none }

def evC1 : StripeEvent :=
  { type := "customer.subscription.updated", customer := some "cus_7",
    status := some "past_due" }

def uC1 : UserRecord :=
  { isPro := true, method := some "secret_code", lifetimeAccess := true }

/-- C1 counterexample: a record with `method = secret_code` and
`isPro = true` receives a `customer.subscription.updated` event with
status `past_due` for its email, and the handler sets `isPro = false` —
the subscription-updated branch performs no `secret_code` check. -/
theorem secret_code_isPro_cleared_counterexample :
    (findOne [("u@x.com", uC1)] "u@x.com").map UserRecord.method =
      some (some "secret_code") ∧
    (findOne [("u@x.com", uC1)] "u@x.com").map UserRecord.isPro = some true ∧
    (findOne (applyEvent envC1 evC1 [("u@x.com", uC1)]) "u@x.com").map
      UserRecord.isPro = some false := by
  refine ⟨rfl, rfl, ?_⟩
  decide

/-- C1 amended: a record with `method = secret_code` and `isPro = true`
never has `isPro` set to false by a checkout-completion, invoice-paid, or
subscription-deleted transition; a `customer.subscription.updated` event
with a status outside {active, trialing} does set it to false (the
invariant excludes that one transition). -/
theorem secret_code_isPro_preserved_amended (env : WebhookEnv)
    (ev : StripeEvent) (db : Db) (e : String) (u : UserRecord)
    (hfind : findOne db e = some u)
    (hm : u.method = some "secret_code")
    (hp : u.isPro = true)
    (hne : ev.type ≠ "customer.subscription.updated")
    (r' : UserRecord)
    (hfind' : findOne (applyEvent env ev db) e = some r') :
    r'.isPro = true := by
  rcases applyEvent_shape env ev db with h | ⟨e2, h⟩ | ⟨e2, c, h⟩ |
    ⟨e2, ht, h⟩ | ⟨e2, u2, hf2, hm2, h⟩ | ⟨e2, hcond, h⟩
  · rw [h, hfind] at hfind'
    cases hfind'
    exact hp
  · rw [h] at hfind'
    rcases findOne_updateOne_cases db e e2 _ _ r' hfind' with
      ⟨_, hfe⟩ | ⟨_, ⟨r, _, hr⟩ | ⟨_, _, hr⟩⟩
    · rw [hfind] at hfe; cases hfe; exact hp
    · rw [hr]; rfl
    · rw [hr]; rfl
  · rw [h] at hfind'
    rcases findOne_updateOne_cases db e e2 _ _ r' hfind' with
      ⟨_, hfe⟩ | ⟨_, ⟨r, _, hr⟩ | ⟨_, _, hr⟩⟩
    · rw [hfind] at hfe; cases hfe; exact hp
    · rw [hr]; rfl
    · rw [hr]; rfl
  · exact absurd ht hne
  · rw [h] at hfind'
    rcases findOne_updateOne_cases db e e2 _ _ r' hfind' with
      ⟨_, hfe⟩ | ⟨heq, ⟨r, hfr, hr⟩ | ⟨_, hup, _⟩⟩
    · rw [hfind] at hfe; cases hfe; exact hp
    · subst heq
      rw [hfind] at hfr
      cases hfr
      rw [hr]
      simpa [subDeletedKeepSet] using hp
    · cases hup
  · rw [h] at hfind'
    rcases findOne_updateOne_cases db e e2 _ _ r' hfind' with
      ⟨_, hfe⟩ | ⟨heq, ⟨r, hfr, _⟩ | ⟨_, hup, _⟩⟩
    · rw [hfind] at hfe; cases hfe; exact hp
    · subst heq
      rw [hfind] at hfr
      cases hfr
      exact absurd hm (hcond u hfind)
    · cases hup

def envC1w : WebhookEnv :=
  { now := 22,
    retrieveCustomer := fun c =>
      if c = "cus_7" then some (some "u@x.com") else none }

def evC1w : StripeEvent :=
  { type := "customer.subscription.deleted", customer := some "cus_7" }

def uC1post : UserRecord :=
  { uC1 with
    subscriptionStatus := some "cancelled",
    cancelledAt := some 22, stripeCustomerId := none,
    subscriptionId := none }

theorem secret_code_isPro_preserved_amended_witness :
    ∃ r', findOne (applyEvent envC1w evC1w [("u@x.com", uC1)]) "u@x.com" =
      some r' ∧ r'.isPro = true := by
  refine ⟨uC1post, by decide, ?_⟩
  exact secret_code_isPro_preserved_amended envC1w evC1w
    [("u@x.com", uC1)] "u@x.com" uC1 rfl rfl rfl (by decide) uC1post
    (by decide)

def envC9 : WebhookEnv := { now := 2, retrieveCustomer := fun _ => none }

def evC9 : StripeEvent :=
  { type := "checkout.session.completed", customerEmail := some "a@x.com",
    customer := some "cus_1", subscription := some "sub_1" }

def dbC9 : Db :=
  applyEvent envC9 evC9
    (verifyCode ["CODE1"] 1 false (some "a@x.com") (some "CODE1") []).1

/-- C9 counterexample: redeem a valid code (record gets
`lifetimeAccess = true`, `method = secret_code`), then complete a
checkout for the same email — the upsert overwrites `method` with
`stripe` but leaves `lifetimeAccess = true`, so a reachable state has
`lifetimeAccess = true` with `method ≠ secret_code`. -/
theorem lifetime_only_secret_code_counterexample :
    Reachable dbC9 ∧
    (findOne dbC9 "a@x.com").map UserRecord.lifetimeAccess = some true ∧
    (findOne dbC9 "a@x.com").map UserRecord.method = some (some "stripe") := by
  refine ⟨?_, by decide, by decide⟩
  exact Reachable.webhookStep envC9 evC9
    (Reachable.verifyStep ["CODE1"] 1 false (some "a@x.com") (some "CODE1")
      Reachable.init)

/-- C9 amended: `lifetimeAccess = true` is introduced only by the
`/verify-code` grant, and at that moment the record also gets
`method = secret_code`; webhook- and cancellation-driven mutations never
switch `lifetimeAccess` from false to true (though a later stripe grant
may overwrite `method` while `lifetimeAccess` stays set). -/
theorem lifetime_access_introduction_amended :
    (∀ (env : WebhookEnv) (ev : StripeEvent) (db : Db) (e : String)
       (r' : UserRecord),
       findOne (applyEvent env ev db) e = some r' →
       r'.lifetimeAccess = true →
       ∃ r, findOne db e = some r ∧ r.lifetimeAccess = true) ∧
    (∀ (env : CancelEnv) (email : Option String) (db : Db) (e : String)
       (r' : UserRecord),
       findOne (cancelSubscription env email db).db e = some r' →
       r'.lifetimeAccess = true →
       ∃ r, findOne db e = some r ∧ r.lifetimeAccess = true) ∧
    (∀ (codes : List String) (now : Nat) (dbFails : Bool)
       (email code : Option String) (db : Db) (e : String) (r' : UserRecord),
       findOne (verifyCode codes now dbFails email code db).1 e = some r' →
       r'.lifetimeAccess = true →
       (∃ r, findOne db e = some r ∧ r.lifetimeAccess = true) ∨
       r'.method = some "secret_code") := by
  refine ⟨?_, ?_, ?_⟩
  · intro env ev db e r' hfind' hl
    rcases applyEvent_shape env ev db with h | ⟨e2, h⟩ | ⟨e2, c, h⟩ |
      ⟨e2, _, h⟩ | ⟨e2, u2, _, _, h⟩ | ⟨e2, _, h⟩
    · rw [h] at hfind'; exact ⟨r', hfind', hl⟩
    · rw [h] at hfind'
      exact lifetimeAccess_of_updateOne db e2 e (checkoutSet env ev) true
        (fun r => rfl) r' hfind' hl
    · rw [h] at hfind'
      exact lifetimeAccess_of_updateOne db e2 e (invoiceSet env c) true
        (fun r => rfl) r' hfind' hl
    · rw [h] at hfind'
      exact lifetimeAccess_of_updateOne db e2 e (subUpdatedSet env ev) false
        (fun r => rfl) r' hfind' hl
    · rw [h] at hfind'
      exact lifetimeAccess_of_updateOne db e2 e (subDeletedKeepSet env) false
        (fun r => rfl) r' hfind' hl
    · rw [h] at hfind'
      exact lifetimeAccess_of_updateOne db e2 e (subDeletedDropSet env) false
        (fun r => rfl) r' hfind' hl
  · intro env email db e r' hfind' hl
    rcases cancelSubscription_db_shape env email db with h | ⟨e2, h⟩
    · rw [h] at hfind'; exact ⟨r', hfind', hl⟩
    · rw [h] at hfind'
      exact lifetimeAccess_of_updateOne db e2 e (cancellingSet env.now) false
        (fun r => rfl) r' hfind' hl
  · intro codes now dbFails email code db e r' hfind' hl
    by_cases h1 : ¬strTruthy email ∨ ¬strTruthy code
    · have hid : (verifyCode codes now dbFails email code db).1 = db := by
        unfold verifyCode; rw [if_pos h1]
      rw [hid] at hfind'
      exact Or.inl ⟨r', hfind', hl⟩
    · push_neg at h1
      cases email with
      | none => simp [strTruthy] at h1
      | some e0 =>
          cases code with
          | none => simp [strTruthy] at h1
          | some c0 =>
              have he0 : ¬e0 = "" := by simpa [strTruthy] using h1.1
              have hc0 : ¬c0 = "" := by simpa [strTruthy] using h1.2
              by_cases h2 : (jsIncludes e0 '@' = true ∧
                  jsIncludes e0 '.' = true)
              · by_cases h3 : jsToUpper (jsTrim c0) ∈ codes
                · cases hdb : dbFails with
                  | true =>
                      have hid : (verifyCode codes now dbFails (some e0)
                          (some c0) db).1 = db := by
                        simp [verifyCode, strTruthy, he0, hc0, h2.1, h2.2,
                          h3, hdb]
                      rw [hid] at hfind'
                      exact Or.inl ⟨r', hfind', hl⟩
                  | false =>
                      have hgr : (verifyCode codes now dbFails (some e0)
                          (some c0) db).1 =
                          updateOne db e0 (grantSet now) true := by
                        simp [verifyCode, strTruthy, he0, hc0, h2.1, h2.2,
                          h3, hdb]
                      rw [hgr] at hfind'
                      rcases findOne_updateOne_cases db e e0 (grantSet now)
                          true r' hfind' with
                        ⟨_, hfe⟩ | ⟨_, ⟨r, _, hr⟩ | ⟨_, _, hr⟩⟩
                      · exact Or.inl ⟨r', hfe, hl⟩
                      · exact Or.inr (by rw [hr]; rfl)
                      · exact Or.inr (by rw [hr]; rfl)
                · have hid : (verifyCode codes now dbFails (some e0)
                      (some c0) db).1 = db := by
                    simp [verifyCode, strTruthy, he0, hc0, h2.1, h2.2, h3]
                  rw [hid] at hfind'
                  exact Or.inl ⟨r', hfind', hl⟩
              · have hid : (verifyCode codes now dbFails (some e0)
                    (some c0) db).1 = db := by
                  simp [verifyCode, strTruthy, he0, hc0, h2]
                rw [hid] at hfind'
                exact Or.inl ⟨r', hfind', hl⟩

theorem lifetime_access_introduction_amended_witness :
    ∃ r, findOne [("u@x.com", uC1)] "u@x.com" = some r ∧
      r.lifetimeAccess = true :=
  lifetime_access_introduction_amended.1 envC1w evC1w
    [("u@x.com", uC1)] "u@x.com" uC1post (by decide) (by decide)

end Imagefy
